import Mathlib

/-!
Verification of the tfstate-mcp state access and query layer.

The definitions below are a shallow embedding of the repository's Python
source (`main.py`, `backends/s3.py`).  External library behaviour (boto3
sessions, S3 pagination, `json.dumps`) is modelled at the call boundary:
S3 responses and client-construction outcomes are explicit inputs, and
serialization is a stand-in encoding function whose exact text no theorem
depends on.
-/

namespace Tfstate

/-! ### String primitives (model of Python `str.lower`, `in`, `startswith`, `endswith`) -/

/-- Character-list test: the first list occurs at the head of the second.
Model of Python string prefix comparison. -/
def leadsWith : List Char → List Char → Bool
  | [], _ => true
  | _ :: _, [] => false
  | a :: as, b :: bs => a == b && leadsWith as bs

/-- Character-list test: the first list occurs contiguously somewhere in the
second. Model of Python `needle in hay` on strings. -/
def occursIn (needle : List Char) : List Char → Bool
  | [] => needle.isEmpty
  | h :: hs => leadsWith needle (h :: hs) || occursIn needle hs

/-- Model of Python `str.lower` as a character list. -/
def pyLower (s : String) : List Char := s.data.map Char.toLower

/-- Model of Python `needle.lower() in hay.lower()`. -/
def pySubstr (needle hay : String) : Bool := occursIn (pyLower needle) (pyLower hay)

/-- Model of Python `s.startswith(p)`. -/
def textStartsWith (s p : String) : Bool := leadsWith p.data s.data

/-- Model of Python `s.endswith(p)`. -/
def textEndsWith (s p : String) : Bool := leadsWith p.data.reverse s.data.reverse

/-- Python truthiness of an optional string: `None` and `""` are falsy. -/
def optTruthy : Option String → Bool
  | none => false
  | some s => !s.data.isEmpty

/-- Python `str(x)` for an optional string (`None` prints as "None"). -/
def pyStr : Option String → String
  | none => "None"
  | some s => s

/-! ### State document data model (fields consumed by `read_and_search_tfstate`) -/

/-- One entry of a resource's `instances` array as found in the raw JSON;
`none` models an absent field (`dict.get` returning `None`). -/
structure SrcInstance where
  attributes : Option (List (String × String))
  status : Option String
  schema_version : Option Int
deriving DecidableEq, Repr

/-- One entry of the document's `resources` array as found in the raw JSON. -/
structure SrcResource where
  type : Option String
  name : Option String
  provider : Option String
  mode : Option String
  instances : Option (List SrcInstance)
deriving DecidableEq, Repr

/-- The parsed state document: the fields `read_and_search_tfstate` consumes. -/
structure StateDoc where
  version : Option Int
  terraform_version : Option String
  serial : Option Int
  lineage : Option String
  resources : Option (List SrcResource)
deriving DecidableEq, Repr

/-- `instance_info` record built inside the resource loop:
`attributes` defaults to the empty mapping via `instance.get("attributes", {})`. -/
structure InstanceInfo where
  attributes : List (String × String)
  status : Option String
  schema_version : Option Int
deriving DecidableEq, Repr

/-- `resource_info` record built inside the resource loop. -/
structure ResourceInfo where
  type : Option String
  name : Option String
  provider : Option String
  mode : Option String
  instances : List InstanceInfo
deriving DecidableEq, Repr

/-- The `result` dictionary returned by `read_and_search_tfstate`. -/
structure QueryResult where
  version : Option Int
  terraform_version : Option String
  serial : Option Int
  lineage : Option String
  resources : List ResourceInfo
  total_resources : Nat
deriving DecidableEq, Repr

def buildInstanceInfo (i : SrcInstance) : InstanceInfo :=
  { attributes := i.attributes.getD []
    status := i.status
    schema_version := i.schema_version }

def buildResourceInfo (r : SrcResource) : ResourceInfo :=
  { type := r.type
    name := r.name
    provider := r.provider
    mode := r.mode
    instances := (r.instances.getD []).map buildInstanceInfo }

/-- Stand-in for the Python runtime message raised by `None.lower()`. -/
def attributeErrorMsg : String := "AttributeError: NoneType object has no attribute lower"

/-- The filtering condition of the source, line for line:
`search_query.lower() in resource_info["type"].lower() or
 search_query.lower() in resource_info["name"].lower()`, with Python's
left-to-right short-circuit evaluation. Accessing `.lower()` on a missing
(`None`) field raises, modelled as `Except.error`. -/
def filterMatch (q : String) (ri : ResourceInfo) : Except String Bool :=
  match ri.type with
  | none => .error attributeErrorMsg
  | some t =>
    if pySubstr q t then .ok true
    else
      match ri.name with
      | none => .error attributeErrorMsg
      | some n => .ok (pySubstr q n)

/-- Total version of the retain decision, reading absent fields as `""`.
On every run of `filterMatch` that does not raise, the two agree. -/
def matchB (q : String) (ri : ResourceInfo) : Bool :=
  pySubstr q (ri.type.getD "") || pySubstr q (ri.name.getD "")

/-- The resource loop of `read_and_search_tfstate` under a truthy
`search_query`: build each `resource_info` in order, append it when the
filter condition holds, propagate the first raised exception. -/
def filterResources (q : String) : List SrcResource → Except String (List ResourceInfo)
  | [] => .ok []
  | r :: rs =>
    match filterMatch q (buildResourceInfo r) with
    | .error e => .error e
    | .ok keep =>
      match filterResources q rs with
      | .error e => .error e
      | .ok rest => .ok (if keep then buildResourceInfo r :: rest else rest)

/-- `read_and_search_tfstate` after the fetch/parse step: extract the four
metadata fields, walk `resources` (absent means empty), filter when
`search_query` is truthy, and set `total_resources` to the length of the
retained list. -/
def read_and_search (doc : StateDoc) (search_query : Option String) :
    Except String QueryResult :=
  match (if optTruthy search_query
         then filterResources (search_query.getD "") (doc.resources.getD [])
         else .ok ((doc.resources.getD []).map buildResourceInfo)) with
  | .error e => .error e
  | .ok infos =>
    .ok { version := doc.version
          terraform_version := doc.terraform_version
          serial := doc.serial
          lineage := doc.lineage
          resources := infos
          total_resources := infos.length }

/-! ### Object listing (`list_states` in `backends/s3.py`, identical loop in
`list_tfstate_files` in `main.py`) -/

/-- One page of a paginated `list_objects_v2` response; `none` models a page
without a `Contents` entry. -/
structure Page where
  contents : Option (List String)
deriving DecidableEq, Repr

/-- The keys a page contributes (a page without `Contents` contributes none). -/
def pageKeys (p : Page) : List String := p.contents.getD []

/-- The pagination loop: for each page with a `Contents` entry, append every
key whose name ends with the literal suffix `.tfstate`. -/
def list_states : List Page → List String
  | [] => []
  | p :: ps =>
    (match p.contents with
     | some keys => keys.filter (fun k => textEndsWith k ".tfstate")
     | none => []) ++ list_states ps

/-! ### S3 client construction and process-wide caching (`get_s3_client` in `main.py`) -/

/-- How a boto3 client was constructed, recording which credential source
each branch of `get_s3_client` uses. -/
inductive S3Client where
  | fromProfile (p : String)
  | fromKeys (key secret : String)
  | defaultChain
deriving DecidableEq, Repr

/-- Outcome of the underlying boto3 construction call: success, a
`NoCredentialsError`, or another exception with a message. -/
inductive BotoOutcome where
  | ok
  | noCredentials
  | fail (msg : String)
deriving DecidableEq, Repr

/-- The ambient inputs `get_s3_client` reads: the two credential environment
variables and the behaviour of the external boto3 call. -/
structure AwsEnv where
  access_key_id : Option String
  secret_access_key : Option String
  boto : BotoOutcome
deriving DecidableEq, Repr

/-- The `try` body of `get_s3_client`: profile if truthy, else environment
keys if both truthy, else the default credential chain; boto3 exceptions
become `ValueError`s. -/
def buildClient (profile_name : Option String) (env : AwsEnv) : Except String S3Client :=
  match env.boto with
  | .noCredentials => .error "AWS 자격증명을 찾을 수 없습니다."
  | .fail m => .error ("S3 클라이언트 생성 실패: " ++ m)
  | .ok =>
    if optTruthy profile_name then .ok (.fromProfile (profile_name.getD ""))
    else if optTruthy env.access_key_id && optTruthy env.secret_access_key then
      .ok (.fromKeys (env.access_key_id.getD "") (env.secret_access_key.getD ""))
    else .ok .defaultChain

/-- `get_s3_client` with the module-global `s3_client` made explicit: the
cached client, when present, is returned unchanged and the `profile_name`
argument is never consulted; otherwise a client is built and cached, and on
failure the cache stays empty. Returns the client together with the new
cache state. -/
def get_s3_client (cached : Option S3Client) (profile_name : Option String)
    (env : AwsEnv) : Except String (S3Client × Option S3Client) :=
  match cached with
  | some c => .ok (c, some c)
  | none =>
    match buildClient profile_name env with
    | .error e => .error e
    | .ok c => .ok (c, some c)

/-! ### Credential resolver (spec-modelled) composed with the S3 backend's
session construction (`backends/s3.py`) -/

/-- The keyword arguments `_get_s3_client` in `backends/s3.py` passes to
`boto3.Session`. -/
structure SessionKwargs where
  profile_name : Option String
  region_name : Option String
  aws_access_key_id : Option String
  aws_secret_access_key : Option String
  aws_session_token : Option String
deriving DecidableEq, Repr

/-- `S3Backend._get_s3_client` from `backends/s3.py`: the profile and region
enter `session_kwargs` when truthy; when both key id and secret are truthy
they enter too, with the session token added only when itself truthy. -/
def sessionKwargsOf (profile_name region_name aws_access_key_id
    aws_secret_access_key aws_session_token : Option String) : SessionKwargs :=
  let keysTruthy := optTruthy aws_access_key_id && optTruthy aws_secret_access_key
  { profile_name := if optTruthy profile_name then profile_name else none
    region_name := if optTruthy region_name then region_name else none
    aws_access_key_id := if keysTruthy then aws_access_key_id else none
    aws_secret_access_key := if keysTruthy then aws_secret_access_key else none
    aws_session_token :=
      if keysTruthy && optTruthy aws_session_token then aws_session_token else none }

/-- Modelled from the spec: the credential resolver (`get_backend` in the
repository's entry module, referenced by `tests/test_auth_logic.py` but not
present under `src/`) selects which arguments are handed to the S3 backend.
Per spec §4.1: explicit keys when both are present (profile ignored, session
token passed along); else the named profile; else the literal profile
`"default"`. Returns the `(profile, key id, secret, token)` arguments. -/
def resolverArgs (key secret token profile : Option String) :
    Option String × Option String × Option String × Option String :=
  if key.isSome && secret.isSome then (none, key, secret, token)
  else if profile.isSome then (profile, none, none, none)
  else (some "default", none, none, none)

/-- The session keyword arguments ultimately used: the resolver's choice fed
through the backend's `session_kwargs` construction. -/
def finalKwargs (key secret token profile region : Option String) : SessionKwargs :=
  match resolverArgs key secret token profile with
  | (p, k, s, t) => sessionKwargsOf p region k s t

/-- Modelled from the spec: the bucket-identifier resolution in `get_backend`
(referenced by `tests/test_cli_args.py` and `tests/test_main_env.py` but not
present under `src/`). The process-start override wins; else the
`TFSTATE_BUCKET_NAME` environment variable; else resolution fails with the
`BucketNotConfigured` error text rather than any default. -/
def resolveBucket (override envVar : Option String) : Except String String :=
  match override with
  | some b => .ok b
  | none =>
    match envVar with
    | some b => .ok b
    | none => .error "TFSTATE_BUCKET_NAME environment variable is not set"

/-! ### Tool dispatcher (`call_tool` in `main.py`) -/

/-- The `arguments` dictionary of a tool call, read with `arguments.get`. -/
structure ToolArgs where
  bucket_name : Option String
  tool_prefix : Option String
  tfstate_path : Option String
  search_query : Option String
  profile_name : Option String
deriving DecidableEq, Repr

/-- One `TextContent` item of a tool result. -/
structure TextContent where
  type : String
  text : String
deriving DecidableEq, Repr

/-- The S3 response to a `list_objects_v2` pagination: pages, or a
`ClientError` with its error code and message. -/
inductive S3ListResult where
  | pages (ps : List Page)
  | clientError (code msg : String)
deriving DecidableEq, Repr

/-- The S3 response to a `get_object` call followed by JSON parsing: a
parsed document, a `ClientError`, or content that is not valid JSON. -/
inductive S3FetchResult where
  | ok (doc : StateDoc)
  | clientError (code msg : String)
  | badJson
deriving DecidableEq, Repr

/-- The external world a tool call touches: the outcome of acquiring the S3
client and the S3 responses to the listing and fetch requests. -/
structure S3World where
  client : Except String Unit
  listing : S3ListResult
  fetch : S3FetchResult
deriving Repr

/-- `list_tfstate_files` from `main.py`: acquire the client, paginate, keep
`.tfstate` keys; `ClientError`s are reclassified as `ValueError` messages. -/
def list_tfstate_files (world : S3World) (bucket_name : Option String) :
    Except String (List String) :=
  match world.client with
  | .error e => .error e
  | .ok _ =>
    match world.listing with
    | .pages ps => .ok (list_states ps)
    | .clientError code msg =>
      if code = "NoSuchBucket" then
        .error ("버킷 " ++ pyStr bucket_name ++ "을 찾을 수 없습니다.")
      else if code = "AccessDenied" then
        .error ("버킷 " ++ pyStr bucket_name ++ "에 대한 접근 권한이 없습니다.")
      else .error ("S3 오류: " ++ msg)

/-- `read_and_search_tfstate` from `main.py` including the fetch step:
acquire the client, fetch and parse the object, then run the query engine;
`ClientError`s and JSON decode failures become `ValueError` messages. -/
def read_tfstate_op (world : S3World) (bucket_name tfstate_path search_query : Option String) :
    Except String QueryResult :=
  match world.client with
  | .error e => .error e
  | .ok _ =>
    match world.fetch with
    | .ok doc => read_and_search doc search_query
    | .clientError code msg =>
      if code = "NoSuchKey" then
        .error ("파일 " ++ pyStr tfstate_path ++ "을 버킷 " ++ pyStr bucket_name ++ "에서 찾을 수 없습니다.")
      else if code = "AccessDenied" then
        .error ("파일 " ++ pyStr tfstate_path ++ "에 대한 접근 권한이 없습니다.")
      else .error ("S3 오류: " ++ msg)
    | .badJson => .error ("파일 " ++ pyStr tfstate_path ++ "은 유효한 JSON 형식이 아닙니다.")

/-- The `result` dictionary the dispatcher builds for `list_tfstate_files`. -/
structure ListToolResult where
  bucket : Option String
  tool_prefix : String
  total_files : Nat
  tfstate_files : List String
deriving DecidableEq, Repr

/-- The dispatcher's `result = { bucket, prefix, total_files: len(files), tfstate_files: files }`. -/
def build_list_result (bucket_name : Option String) (pre : String)
    (files : List String) : ListToolResult :=
  { bucket := bucket_name
    tool_prefix := pre
    total_files := files.length
    tfstate_files := files }

/-- Stand-in encoding for `json.dumps` of a listing result; no theorem
depends on its exact text. -/
def serializeListResult (r : ListToolResult) : String :=
  String.intercalate "," ([pyStr r.bucket, r.tool_prefix, toString r.total_files] ++ r.tfstate_files)

/-- Stand-in encoding for `json.dumps` of a query result; no theorem
depends on its exact text. -/
def serializeQueryResult (r : QueryResult) : String :=
  String.intercalate ","
    ([toString r.total_resources] ++ r.resources.map (fun ri => pyStr ri.type ++ "." ++ pyStr ri.name))

/-- The `try` body of `call_tool`: dispatch on the tool name, run the
operation, serialize the structured result; an unknown name raises
`ValueError`. -/
def tryCallTool (name : String) (args : ToolArgs) (world : S3World) :
    Except String (List TextContent) :=
  if name = "list_tfstate_files" then
    match list_tfstate_files world args.bucket_name with
    | .error e => .error e
    | .ok files =>
      .ok [⟨"text", serializeListResult
            (build_list_result args.bucket_name (args.tool_prefix.getD "") files)⟩]
  else if name = "read_tfstate" then
    match read_tfstate_op world args.bucket_name args.tfstate_path args.search_query with
    | .error e => .error e
    | .ok r => .ok [⟨"text", serializeQueryResult r⟩]
  else .error ("알 수 없는 도구: " ++ name)

/-- `call_tool` from `main.py`: the whole body sits in a `try` whose
`except Exception` clause converts any internal failure into a single
`TextContent` whose text is the error prefix followed by the message, so the
function is total and no exception crosses the tool boundary. -/
def call_tool (name : String) (args : ToolArgs) (world : S3World) : List TextContent :=
  match tryCallTool name args world with
  | .ok r => r
  | .error e => [⟨"text", "오류 발생: " ++ e⟩]

/-! ### Helper lemmas -/

/-- A non-empty string is truthy. -/
theorem optTruthy_of_ne (s : String) (h : s ≠ "") : optTruthy (some s) = true := by
  unfold optTruthy
  cases s with
  | mk l =>
    cases l with
    | nil => exact absurd rfl h
    | cons a as => rfl

/-- A list is a `leadsWith`-prefix of itself followed by anything. -/
theorem leadsWith_append (p r : List Char) : leadsWith p (p ++ r) = true := by
  induction p with
  | nil => rfl
  | cons a as ih => simp [leadsWith, ih]

/-- `textStartsWith` holds on an appended extension of the pattern. -/
theorem textStartsWith_append (p e : String) : textStartsWith (p ++ e) p = true := by
  cases p with
  | mk a =>
    cases e with
    | mk b => exact leadsWith_append a b

/-- On a run of the source's filter condition that does not raise, the
decision agrees with the total `matchB` reading of absent fields as `""`. -/
theorem filterMatch_ok (q : String) (ri : ResourceInfo) (b : Bool)
    (h : filterMatch q ri = .ok b) : matchB q ri = b := by
  unfold filterMatch at h
  unfold matchB
  split at h
  next hty => exact absurd h (by simp)
  next t hty =>
    rw [hty]
    split at h
    next hp =>
      simp only [Except.ok.injEq] at h
      simp [hp, ← h]
    next hp =>
      split at h
      next hn => exact absurd h (by simp)
      next n hn =>
        rw [hn]
        simp only [Except.ok.injEq] at h
        simp [Bool.not_eq_true] at hp
        simp [hp, ← h]

/-- A successful run of the resource loop returns exactly the built records
that satisfy `matchB`, in order. -/
theorem filterResources_ok (q : String) : ∀ (rs : List SrcResource) (l : List ResourceInfo),
    filterResources q rs = .ok l → l = (rs.map buildResourceInfo).filter (matchB q) := by
  intro rs
  induction rs with
  | nil =>
    intro l h
    simp only [filterResources, Except.ok.injEq] at h
    simp [← h]
  | cons r rs ih =>
    intro l h
    unfold filterResources at h
    cases hm : filterMatch q (buildResourceInfo r) with
    | error e => rw [hm] at h; exact absurd h (by simp)
    | ok keep =>
      rw [hm] at h
      cases hr : filterResources q rs with
      | error e => rw [hr] at h; exact absurd h (by simp)
      | ok rest =>
        rw [hr] at h
        simp only [Except.ok.injEq] at h
        have hk := filterMatch_ok q _ keep hm
        have hrest := ih rest hr
        subst hrest
        cases keep with
        | true => simp [← h, List.filter_cons, hk]
        | false => simp [← h, List.filter_cons, hk]

/-! ### Claim theorems -/

/-- Claim C1: for every state document and every present non-empty
`search_query`, the read operation retains a Resource in the result if and
only if the lowercased query is a substring of the lowercased `type` or
`name`; a Resource matching neither is excluded, and the match decision
never inspects the Resource's instances or attributes. -/
theorem c1_search_filter (doc : StateDoc) (q : String) (res : QueryResult)
    (hq : q ≠ "") (h : read_and_search doc (some q) = .ok res) :
    res.resources = ((doc.resources.getD []).map buildResourceInfo).filter (matchB q)
    ∧ (∀ r ∈ doc.resources.getD [],
        (buildResourceInfo r ∈ res.resources ↔ matchB q (buildResourceInfo r) = true))
    ∧ (∀ (ri : ResourceInfo) (l : List InstanceInfo),
        matchB q ri = matchB q { ri with instances := l }) := by
  have ht : optTruthy (some q) = true := optTruthy_of_ne q hq
  have hres : res.resources = ((doc.resources.getD []).map buildResourceInfo).filter (matchB q) := by
    unfold read_and_search at h
    rw [ht] at h
    simp only [if_true, Option.getD_some] at h
    cases hfr : filterResources q (doc.resources.getD []) with
    | error e => rw [hfr] at h; exact absurd h (by simp)
    | ok infos =>
      rw [hfr] at h
      simp only [Except.ok.injEq] at h
      rw [← h]
      exact filterResources_ok q _ infos hfr
  refine ⟨hres, ?_, ?_⟩
  · intro r hr
    rw [hres]
    simp only [List.mem_filter]
    constructor
    · exact fun hx => hx.2
    · exact fun hm => ⟨List.mem_map_of_mem buildResourceInfo hr, hm⟩
  · intro ri l
    cases ri
    rfl

/-- Witness for C1 at a concrete document: a two-resource state filtered by
the non-empty query `"web"` keeps exactly the matching resource. -/
theorem c1_search_filter_witness :
    ("web" : String) ≠ ""
    ∧ read_and_search
        { version := some 4, terraform_version := some "1.5", serial := some 1,
          lineage := some "abc",
          resources := some [
            { type := some "aws_instance", name := some "web", provider := none,
              mode := some "managed", instances := some [] },
            { type := some "aws_s3_bucket", name := some "logs", provider := none,
              mode := none, instances := none }] }
        (some "web")
      = .ok { version := some 4, terraform_version := some "1.5", serial := some 1,
              lineage := some "abc",
              resources := [
                { type := some "aws_instance", name := some "web", provider := none,
                  mode := some "managed", instances := [] }],
              total_resources := 1 }
    ∧ ({ version := some 4, terraform_version := some "1.5", serial := some 1,
         lineage := some "abc",
         resources := [
           { type := some "aws_instance", name := some "web", provider := none,
             mode := some "managed", instances := [] }],
         total_resources := 1 } : QueryResult).resources
      = ((({ version := some 4, terraform_version := some "1.5", serial := some 1,
             lineage := some "abc",
             resources := some [
               { type := some "aws_instance", name := some "web", provider := none,
                 mode := some "managed", instances := some [] },
               { type := some "aws_s3_bucket", name := some "logs", provider := none,
                 mode := none, instances := none }] } : StateDoc).resources.getD
          []).map buildResourceInfo).filter (matchB "web") := by
  refine ⟨by decide, rfl, ?_⟩
  exact (c1_search_filter
    { version := some 4, terraform_version := some "1.5", serial := some 1,
      lineage := some "abc",
      resources := some [
        { type := some "aws_instance", name := some "web", provider := none,
          mode := some "managed", instances := some [] },
        { type := some "aws_s3_bucket", name := some "logs", provider := none,
          mode := none, instances := none }] }
    "web"
    { version := some 4, terraform_version := some "1.5", serial := some 1,
      lineage := some "abc",
      resources := [
        { type := some "aws_instance", name := some "web", provider := none,
          mode := some "managed", instances := [] }],
      total_resources := 1 }
    (by decide) rfl).1

/-- Claim C3: the source does not treat a missing `type` or `name` as the
empty string; filtering a document containing a resource whose `type` field
is absent raises (the embedded evaluation returns the AttributeError) even
though the query matches the resource's name. -/
theorem c3_missing_field_raises :
    read_and_search
      { version := none, terraform_version := none, serial := none, lineage := none,
        resources := some [
          { type := none, name := some "web", provider := none, mode := none,
            instances := none }] }
      (some "web")
    = .error attributeErrorMsg := rfl

/-- Claim C8: with `search_query` omitted or empty, the result carries one
record per entry of the document's `resources` sequence, in order, and its
resource count equals the source document's full resource count. -/
theorem c8_no_query_keeps_all (doc : StateDoc) (q : Option String)
    (hq : q = none ∨ q = some "") :
    read_and_search doc q = .ok
      { version := doc.version, terraform_version := doc.terraform_version,
        serial := doc.serial, lineage := doc.lineage,
        resources := (doc.resources.getD []).map buildResourceInfo,
        total_resources := ((doc.resources.getD []).map buildResourceInfo).length }
    ∧ ((doc.resources.getD []).map buildResourceInfo).length
      = (doc.resources.getD []).length := by
  have ht : optTruthy q = false := by rcases hq with h | h <;> subst h <;> rfl
  constructor
  · unfold read_and_search
    rw [ht]
    simp
  · simp

/-- Witness for C8 at a concrete two-resource document with the query
omitted: every resource is kept in order. -/
theorem c8_no_query_keeps_all_witness :
    ((none : Option String) = none ∨ (none : Option String) = some "")
    ∧ read_and_search
        { version := some 4, terraform_version := none, serial := none, lineage := none,
          resources := some [
            { type := some "aws_instance", name := some "web", provider := none,
              mode := none, instances := none },
            { type := none, name := none, provider := none, mode := none,
              instances := some [] }] }
        none
      = .ok { version := some 4, terraform_version := none, serial := none,
              lineage := none,
              resources := (((some [
                { type := some "aws_instance", name := some "web", provider := none,
                  mode := none, instances := none },
                { type := none, name := none, provider := none, mode := none,
                  instances := some [] }] : Option (List SrcResource)).getD
                []).map buildResourceInfo),
              total_resources := (((some [
                { type := some "aws_instance", name := some "web", provider := none,
                  mode := none, instances := none },
                { type := none, name := none, provider := none, mode := none,
                  instances := some [] }] : Option (List SrcResource)).getD
                []).map buildResourceInfo).length } :=
  ⟨Or.inl rfl, (c8_no_query_keeps_all _ none (Or.inl rfl)).1⟩

/-- The pagination loop flattens the pages and keeps the `.tfstate` keys. -/
theorem list_states_eq_filter (pages : List Page) :
    list_states pages
      = ((pages.map pageKeys).flatten).filter (fun k => textEndsWith k ".tfstate") := by
  induction pages with
  | nil => rfl
  | cons p ps ih =>
    cases hc : p.contents with
    | none => simp [list_states, pageKeys, hc, ih]
    | some keys => simp [list_states, pageKeys, hc, List.filter_append, ih]

/-- A successful `read_and_search` returns a record whose `total_resources`
is the length of its retained list. -/
theorem read_and_search_ok_shape (doc : StateDoc) (q : Option String) (res : QueryResult)
    (h : read_and_search doc q = .ok res) :
    res.total_resources = res.resources.length := by
  unfold read_and_search at h
  split at h
  next e heq => exact absurd h (by simp)
  next infos heq =>
    simp only [Except.ok.injEq] at h
    rw [← h]

/-- Claim C6: when the paginated pages enumerate exactly the store's keys
under the requested prefix, `list_states` returns exactly the keys under
that prefix ending with the literal suffix `.tfstate`; every returned key
carries the suffix, and a key lacking it never appears even if present in
the store. -/
theorem c6_list_states_suffix (store : List String) (pre : String) (pages : List Page)
    (h : (pages.map pageKeys).flatten = store.filter (fun k => textStartsWith k pre)) :
    list_states pages
      = (store.filter (fun k => textStartsWith k pre)).filter
          (fun k => textEndsWith k ".tfstate")
    ∧ (∀ k ∈ list_states pages, textEndsWith k ".tfstate" = true)
    ∧ (∀ k, k ∈ list_states pages ↔
        (k ∈ store ∧ textStartsWith k pre = true ∧ textEndsWith k ".tfstate" = true)) := by
  have heq : list_states pages
      = (store.filter (fun k => textStartsWith k pre)).filter
          (fun k => textEndsWith k ".tfstate") := by
    rw [list_states_eq_filter, h]
  refine ⟨heq, ?_, ?_⟩
  · intro k hk
    rw [heq] at hk
    exact (List.mem_filter.mp hk).2
  · intro k
    rw [heq]
    simp only [List.mem_filter]
    tauto

/-- Witness for C6: a store holding two `.tfstate` keys and one `.txt` key
listed under the prefix `a/` yields exactly the single matching state key. -/
theorem c6_list_states_suffix_witness :
    ([(⟨some ["a/state1.tfstate", "a/other.txt"]⟩ : Page)].map pageKeys).flatten
      = (["a/state1.tfstate", "a/other.txt", "b/state2.tfstate"].filter
          (fun k => textStartsWith k "a/"))
    ∧ list_states [⟨some ["a/state1.tfstate", "a/other.txt"]⟩]
      = ((["a/state1.tfstate", "a/other.txt", "b/state2.tfstate"].filter
          (fun k => textStartsWith k "a/")).filter
            (fun k => textEndsWith k ".tfstate")) := by
  refine ⟨by decide, ?_⟩
  exact (c6_list_states_suffix ["a/state1.tfstate", "a/other.txt", "b/state2.tfstate"]
    "a/" [⟨some ["a/state1.tfstate", "a/other.txt"]⟩] (by decide)).1

/-- Counterexample to claim C7 as stated: the parenthetical promises that a
query matching nothing yields an empty list and count 0, never an error; on
a document whose resource has a `type` that the query misses and an absent
`name`, the operation raises instead (the embedded evaluation returns the
AttributeError), even though nothing matches. -/
theorem c7_counterexample :
    matchB "zzz" (buildResourceInfo
      { type := some "aws_instance", name := none, provider := none, mode := none,
        instances := none }) = false
    ∧ read_and_search
        { version := none, terraform_version := none, serial := none, lineage := none,
          resources := some [
            { type := some "aws_instance", name := none, provider := none,
              mode := none, instances := none }] }
        (some "zzz")
      = .error attributeErrorMsg := ⟨rfl, rfl⟩

/-- Claim C7 (amended): for every successful invocation, `total_files`
equals the length of `tfstate_files` and `total_resources` equals the
length of the resource list; a zero-resource state yields an empty list and
count 0, never an error; and on every invocation that completes, a query
matching nothing yields an empty list and count 0 (a missing `type` or
`name` can instead make the filtering invocation fail). -/
theorem c7_totals :
    (∀ (bucket : Option String) (pre : String) (files : List String),
        (build_list_result bucket pre files).total_files
          = (build_list_result bucket pre files).tfstate_files.length)
    ∧ (∀ (doc : StateDoc) (q : Option String) (res : QueryResult),
        read_and_search doc q = .ok res →
          res.total_resources = res.resources.length)
    ∧ (∀ (doc : StateDoc) (q : Option String), doc.resources.getD [] = [] →
        read_and_search doc q = .ok
          { version := doc.version, terraform_version := doc.terraform_version,
            serial := doc.serial, lineage := doc.lineage,
            resources := [], total_resources := 0 })
    ∧ (∀ (doc : StateDoc) (q : String) (res : QueryResult), q ≠ "" →
        read_and_search doc (some q) = .ok res →
        (∀ r ∈ doc.resources.getD [], matchB q (buildResourceInfo r) = false) →
        res.resources = [] ∧ res.total_resources = 0) := by
  refine ⟨fun bucket pre files => rfl, read_and_search_ok_shape, ?_, ?_⟩
  · intro doc q h
    unfold read_and_search
    rw [h]
    cases htr : optTruthy q <;> simp [htr, filterResources]
  · intro doc q res hq h hnone
    have ht : optTruthy (some q) = true := optTruthy_of_ne q hq
    have hres : res.resources
        = ((doc.resources.getD []).map buildResourceInfo).filter (matchB q) := by
      unfold read_and_search at h
      rw [ht] at h
      simp only [if_true, Option.getD_some] at h
      cases hfr : filterResources q (doc.resources.getD []) with
      | error e => rw [hfr] at h; exact absurd h (by simp)
      | ok infos =>
        rw [hfr] at h
        simp only [Except.ok.injEq] at h
        rw [← h]
        exact filterResources_ok q _ infos hfr
    have hempty : res.resources = [] := by
      rw [hres]
      rw [List.filter_eq_nil_iff]
      intro ri hri
      rcases List.mem_map.mp hri with ⟨r, hr, hrr⟩
      rw [← hrr]
      simp [hnone r hr]
    refine ⟨hempty, ?_⟩
    rw [read_and_search_ok_shape doc (some q) res h, hempty]
    rfl

/-- Witness for C7: concrete instances of the count equalities, the
zero-resource case, and a nothing-matched successful query. -/
theorem c7_totals_witness :
    (build_list_result (some "b") "" ["x.tfstate", "y.tfstate"]).total_files
      = (build_list_result (some "b") "" ["x.tfstate", "y.tfstate"]).tfstate_files.length
    ∧ read_and_search
        { version := some 4, terraform_version := none, serial := none,
          lineage := none, resources := some [] }
        (some "anything")
      = .ok { version := some 4, terraform_version := none, serial := none,
              lineage := none, resources := [], total_resources := 0 } := by
  refine ⟨c7_totals.1 (some "b") "" ["x.tfstate", "y.tfstate"], ?_⟩
  exact c7_totals.2.2.1
    { version := some 4, terraform_version := none, serial := none,
      lineage := none, resources := some [] }
    (some "anything") rfl

/-- Counterexample to claim C2 as stated: on an internal failure the
dispatcher's single textual result does not begin with the prefix
`"Error: "` — the source's prefix is `"오류 발생: "`. -/
theorem c2_counterexample :
    call_tool "bogus_tool" ⟨none, none, none, none, none⟩ ⟨.ok (), .pages [], .badJson⟩
      = [⟨"text", "오류 발생: 알 수 없는 도구: bogus_tool"⟩]
    ∧ textStartsWith "오류 발생: 알 수 없는 도구: bogus_tool" "Error: " = false := ⟨rfl, rfl⟩

/-- Claim C2 (amended): for every invocation of either operation and every
internal failure, the dispatcher catches the failure and returns a single
textual result beginning with the prefix `"오류 발생: "` instead of the
structured object; `call_tool` is a total function, so no exception crosses
the external call boundary. -/
theorem c2_error_boundary (name : String) (args : ToolArgs) (world : S3World)
    (e : String) (h : tryCallTool name args world = .error e) :
    call_tool name args world = [⟨"text", "오류 발생: " ++ e⟩]
    ∧ textStartsWith ("오류 발생: " ++ e) "오류 발생: " = true := by
  constructor
  · unfold call_tool
    rw [h]
  · exact textStartsWith_append "오류 발생: " e

/-- Witness for C2: a read whose fetched content is not valid JSON produces
the single prefixed error text. -/
theorem c2_error_boundary_witness :
    tryCallTool "read_tfstate" ⟨none, none, none, none, none⟩ ⟨.ok (), .pages [], .badJson⟩
      = .error "파일 None은 유효한 JSON 형식이 아닙니다."
    ∧ (call_tool "read_tfstate" ⟨none, none, none, none, none⟩ ⟨.ok (), .pages [], .badJson⟩
        = [⟨"text", "오류 발생: " ++ "파일 None은 유효한 JSON 형식이 아닙니다."⟩]
      ∧ textStartsWith ("오류 발생: " ++ "파일 None은 유효한 JSON 형식이 아닙니다.")
          "오류 발생: " = true) :=
  ⟨rfl, c2_error_boundary "read_tfstate" ⟨none, none, none, none, none⟩
    ⟨.ok (), .pages [], .badJson⟩ "파일 None은 유효한 JSON 형식이 아닙니다." rfl⟩

/-- Claim C10: for every tool name other than the two known operations, the
dispatcher returns the caught unknown-tool failure as a textual error result
rather than propagating an exception. -/
theorem c10_unknown_tool (name : String) (args : ToolArgs) (world : S3World)
    (h1 : name ≠ "list_tfstate_files") (h2 : name ≠ "read_tfstate") :
    call_tool name args world
      = [⟨"text", "오류 발생: " ++ ("알 수 없는 도구: " ++ name)⟩] := by
  unfold call_tool tryCallTool
  rw [if_neg h1, if_neg h2]

/-- Witness for C10 at a concrete unknown tool name. -/
theorem c10_unknown_tool_witness :
    ("delete_tfstate" : String) ≠ "list_tfstate_files"
    ∧ ("delete_tfstate" : String) ≠ "read_tfstate"
    ∧ call_tool "delete_tfstate" ⟨some "b", none, none, none, none⟩
        ⟨.ok (), .pages [], .badJson⟩
      = [⟨"text", "오류 발생: " ++ ("알 수 없는 도구: " ++ "delete_tfstate")⟩] :=
  ⟨by decide, by decide,
    c10_unknown_tool "delete_tfstate" ⟨some "b", none, none, none, none⟩
      ⟨.ok (), .pages [], .badJson⟩ (by decide) (by decide)⟩

/-- Claim C9: once a first call to `get_s3_client` has successfully
constructed and cached a client, every later call returns that identical
cached client, leaves the cache unchanged, and ignores its own
`profile_name` argument (and environment) entirely. -/
theorem c9_client_cached (p₁ : Option String) (env₁ : AwsEnv) (c : S3Client)
    (st : Option S3Client) (h : get_s3_client none p₁ env₁ = .ok (c, st)) :
    st = some c
    ∧ ∀ (p₂ : Option String) (env₂ : AwsEnv), get_s3_client st p₂ env₂ = .ok (c, st) := by
  unfold get_s3_client at h
  cases hb : buildClient p₁ env₁ with
  | error e => rw [hb] at h; exact absurd h (by simp)
  | ok c' =>
    rw [hb] at h
    simp only [Except.ok.injEq, Prod.mk.injEq] at h
    obtain ⟨hc, hst⟩ := h
    subst hc
    refine ⟨hst.symm, ?_⟩
    intro p₂ env₂
    rw [← hst]
    rfl

/-- Witness for C9: a first call caching a profile-built client, then a
second call with a different profile and explicit environment keys that
still returns the first client. -/
theorem c9_client_cached_witness :
    get_s3_client none (some "prod") ⟨none, none, .ok⟩
      = .ok (.fromProfile "prod", some (.fromProfile "prod"))
    ∧ get_s3_client (some (.fromProfile "prod")) (some "other")
        ⟨some "AK", some "SK", .ok⟩
      = .ok (.fromProfile "prod", some (.fromProfile "prod")) :=
  ⟨rfl,
    (c9_client_cached (some "prod") ⟨none, none, .ok⟩ (.fromProfile "prod")
      (some (.fromProfile "prod")) rfl).2 (some "other") ⟨some "AK", some "SK", .ok⟩⟩

/-- Claim C4 (spec-modelled resolver composed with the source's session
construction): explicit keys both present give a session built from those
keys, with the token only when itself present, regardless of any profile;
no keys but a profile gives a session built from that profile; neither
gives the literal profile `"default"`. -/
theorem c4_credential_precedence :
    (∀ (k s : String) (token profile region : Option String), k ≠ "" → s ≠ "" →
        (finalKwargs (some k) (some s) token profile region).aws_access_key_id = some k
        ∧ (finalKwargs (some k) (some s) token profile region).aws_secret_access_key = some s
        ∧ (finalKwargs (some k) (some s) token profile region).profile_name = none
        ∧ (token = none →
            (finalKwargs (some k) (some s) token profile region).aws_session_token = none)
        ∧ (∀ t, token = some t → t ≠ "" →
            (finalKwargs (some k) (some s) token profile region).aws_session_token = some t))
    ∧ (∀ (key secret token : Option String) (p : String) (region : Option String),
        (key.isSome && secret.isSome) = false → p ≠ "" →
        (finalKwargs key secret token (some p) region).profile_name = some p
        ∧ (finalKwargs key secret token (some p) region).aws_access_key_id = none
        ∧ (finalKwargs key secret token (some p) region).aws_secret_access_key = none
        ∧ (finalKwargs key secret token (some p) region).aws_session_token = none)
    ∧ (∀ region : Option String,
        (finalKwargs none none none none region).profile_name = some "default"
        ∧ (finalKwargs none none none none region).aws_access_key_id = none
        ∧ (finalKwargs none none none none region).aws_secret_access_key = none) := by
  refine ⟨?_, ?_, ?_⟩
  · intro k s token profile region hk hs
    have htk := optTruthy_of_ne k hk
    have hts := optTruthy_of_ne s hs
    unfold finalKwargs resolverArgs sessionKwargsOf
    refine ⟨?_, ?_, ?_, ?_, ?_⟩
    · simp [htk, hts]
    · simp [htk, hts]
    · simp [optTruthy]
    · intro ht; subst ht; simp [htk, hts, optTruthy]
    · intro t ht htne
      subst ht
      simp [htk, hts, optTruthy_of_ne t htne]
  · intro key secret token p region hks hp
    have hd : ¬p.data = [] := by
      intro hdata
      apply hp
      cases p with
      | mk l =>
        simp only at hdata
        subst hdata
        rfl
    unfold finalKwargs resolverArgs sessionKwargsOf
    simp [hks, optTruthy_of_ne p hp, optTruthy, hd]
  · intro region
    unfold finalKwargs resolverArgs sessionKwargsOf
    exact ⟨rfl, rfl, rfl⟩

/-- Witness for C4: concrete instances of the three precedence modes. -/
theorem c4_credential_precedence_witness :
    ((finalKwargs (some "AK") (some "SK") (some "TOK") (some "prod") none).aws_access_key_id
        = some "AK"
      ∧ (finalKwargs (some "AK") (some "SK") (some "TOK") (some "prod") none).profile_name
        = none)
    ∧ (finalKwargs none none none (some "prod") none).profile_name = some "prod"
    ∧ (finalKwargs none none none none none).profile_name = some "default" := by
  have h1 := c4_credential_precedence.1 "AK" "SK" (some "TOK") (some "prod") none
    (by decide) (by decide)
  have h2 := c4_credential_precedence.2.1 none none none "prod" none (by decide) (by decide)
  have h3 := c4_credential_precedence.2.2 none
  exact ⟨⟨h1.1, h1.2.2.1⟩, h2.1, h3.1⟩

/-- Claim C5 (spec-modelled): the bucket identifier resolution uses the
process-start override verbatim even when the environment variable differs,
falls back to the environment variable when the override is absent, and
fails with the bucket-not-configured error rather than any default when
neither is set. -/
theorem c5_bucket_precedence :
    (∀ (b : String) (envVar : Option String), resolveBucket (some b) envVar = .ok b)
    ∧ (∀ e : String, resolveBucket none (some e) = .ok e)
    ∧ resolveBucket none none
      = .error "TFSTATE_BUCKET_NAME environment variable is not set" :=
  ⟨fun _ _ => rfl, fun _ => rfl, rfl⟩

end Tfstate
